import Mathlib

/-!
Verification of the secrets-manager repository.

The repository stores a fixed set of organizational credentials in the
macOS Keychain (an external OS credential store invoked through the
`security` command-line tool) and exposes them through a CLI and a small
authenticated HTTP API.

Shallow embedding conventions:
* The external OS credential store is modelled as an association list from
  (service, account) pairs to stored string values.  The three external
  operations used by the source (`security find-generic-password`,
  `security delete-generic-password`, `security add-generic-password`) are
  modelled by `kcFind`, `kcDelete` and `kcAdd`.  `kcAdd` may be made to
  fail through an explicit `addFails` flag, standing for an external
  failure of the `add-generic-password` call (permissions, store locked);
  a duplicate entry also makes it fail, matching the real tool.
* `security find-generic-password -w` prints the stored secret; the
  source applies Python `str.strip()` to that output, modelled by
  `pyStrip` (the trailing newline the tool emits is absorbed by the
  strip in either case).
* Each keychain-layer function also returns the list of OS-store calls it
  issued (`SecCall`), so that "no call reaches the OS store" is a
  statement about the returned trace.
* HTTP requests are modelled by `Request`: the Authorization header, the
  URL path (without query string), the Content-Length header (absent
  modelled as 0, matching `int(self.headers.get("Content-Length", 0))`)
  and the result of `json.loads` on the request body (`none` = the body
  does not parse; `some fields` = a JSON object whose values are strings,
  the only shape the claims exercise).
* Responses are status code plus a structured body mirroring the exact
  JSON dictionaries built by the source.
-/

/-- Embeds `SERVICE_NAME = "mcp-servers"` from keychain.py. -/
def SERVICE_NAME : String := "mcp-servers"

/-- Embeds the `ORG_KEYS` list from keychain.py. -/
def ORG_KEYS : List String :=
  ["COMPANY_OWNER_SSN", "BANK_ACCT", "BANK_ROUTING", "COMPANY_NAME",
   "COMPANY_EIN", "COMPANY_ADDRESS", "COMPANY_OWNER"]

/-- Does the character list `needle` occur at the head of `hay`?
Building block for Python substring and startswith tests. -/
def charsStartWith : List Char → List Char → Bool
  | [], _ => true
  | _ :: _, [] => false
  | a :: as, b :: bs => a == b && charsStartWith as bs

/-- Does the character list `needle` occur contiguously anywhere in `hay`?
Embeds Python's substring operator `needle in hay`. -/
def charsContain (needle : List Char) : List Char → Bool
  | [] => charsStartWith needle []
  | b :: rest => charsStartWith needle (b :: rest) || charsContain needle rest

/-- Embeds Python `needle in hay` on strings (substring containment). -/
def containsSub (hay needle : String) : Bool :=
  charsContain needle.toList hay.toList

/-- Embeds Python `str.strip()` with no arguments: remove leading and
trailing whitespace characters. -/
def pyStrip (s : String) : String :=
  String.mk (((s.toList.dropWhile Char.isWhitespace).reverse.dropWhile
    Char.isWhitespace).reverse)

/-- The OS credential store, modelled as an association list from
(service, account) to the stored secret. -/
abbrev KC := List ((String × String) × String)

/-- One invocation of the external `security` tool. -/
inductive SecCall where
  | find (service account : String)
  | del (service account : String)
  | add (service account value : String)
  deriving DecidableEq, Repr

/-- Model of `security find-generic-password -s service -a account -w`:
the stored secret for the pair, if present. -/
def kcFind (kc : KC) (service account : String) : Option String :=
  match kc.find? (fun e => e.1.1 == service && e.1.2 == account) with
  | some e => some e.2
  | none => none

/-- Model of `security delete-generic-password`: remove the entry for the
pair (the source ignores this call's outcome entirely). -/
def kcDelete (kc : KC) (service account : String) : KC :=
  kc.filter (fun e => !(e.1.1 == service && e.1.2 == account))

/-- Model of `security add-generic-password`: fails (returns `none`) when
the external call fails (`addFails`) or a duplicate entry exists, matching
the real tool's duplicate-item error; otherwise stores the value. -/
def kcAdd (addFails : Bool) (kc : KC) (service account value : String) :
    Option KC :=
  if addFails || (kcFind kc service account).isSome then none
  else some (((service, account), value) :: kc)

/-- Embeds `get_from_keychain` (keychain.py:25):
run `security find-generic-password ... -w`; on success return
`result.stdout.strip()`, otherwise `None`.  Also returns the trace of OS
calls made. -/
def get_from_keychain (kc : KC) (service account : String) :
    Option String × List SecCall :=
  match kcFind kc service account with
  | some raw => (some (pyStrip raw), [SecCall.find service account])
  | none => (none, [SecCall.find service account])

/-- Embeds `store_in_keychain` (keychain.py:49): first run
`security delete-generic-password` with `check=False` (outcome ignored),
then `security add-generic-password` with `check=True`; return `False`
exactly when the add step raises `CalledProcessError`.  Returns the new
store, the boolean result, and the trace of OS calls. -/
def store_in_keychain (addFails : Bool) (kc : KC)
    (service account password : String) : KC × Bool × List SecCall :=
  let kc1 := kcDelete kc service account
  match kcAdd addFails kc1 service account password with
  | some kc2 => (kc2, true, [SecCall.del service account,
      SecCall.add service account password])
  | none => (kc1, false, [SecCall.del service account,
      SecCall.add service account password])

/-- The spec's `Validate` operation: the membership test `key in ORG_KEYS`
used inline throughout the source. -/
def Validate (key : String) : Bool := ORG_KEYS.contains key

/-- Embeds `get_specific_detail` (keychain.py:93): reject keys outside
`ORG_KEYS` before touching the keychain, otherwise delegate to
`get_from_keychain`. -/
def get_specific_detail (kc : KC) (key : String) :
    Option String × List SecCall :=
  if Validate key then get_from_keychain kc SERVICE_NAME key
  else (none, [])

/-- The loop body of `get_organization_details` (keychain.py:79): iterate
over the given keys, keeping `(key, value)` when `get_from_keychain`
returns a truthy value (Python `if value:` — skips both `None` and the
empty string). -/
def detailsAux (kc : KC) : List String → List (String × String) →
    List (String × String)
  | [], acc => acc
  | key :: rest, acc =>
    match (get_from_keychain kc SERVICE_NAME key).1 with
    | some v => if v = "" then detailsAux kc rest acc
        else detailsAux kc rest (acc ++ [(key, v)])
    | none => detailsAux kc rest acc

/-- Embeds `get_organization_details` (keychain.py:79). -/
def get_organization_details (kc : KC) : List (String × String) :=
  detailsAux kc ORG_KEYS []

/-- Embeds `mask_sensitive_value` (cli.py:23). -/
def cli_mask_sensitive_value (key value : String) : String :=
  if (["SSN", "EIN", "BANK", "ACCT", "ROUTING"] : List String).any
      (fun s => containsSub key s) then
    if value.length > 4 then
      String.mk (List.replicate (value.length - 4) '*' ++
        value.toList.drop (value.length - 4))
    else
      String.mk (List.replicate value.length '*')
  else value

/-- Embeds `_mask_sensitive_value` (server.py:109); its Python body is
identical to the CLI one. -/
def server_mask_sensitive_value (key value : String) : String :=
  if (["SSN", "EIN", "BANK", "ACCT", "ROUTING"] : List String).any
      (fun s => containsSub key s) then
    if value.length > 4 then
      String.mk (List.replicate (value.length - 4) '*' ++
        value.toList.drop (value.length - 4))
    else
      String.mk (List.replicate value.length '*')
  else value

/-- An HTTP request as the handler sees it: Authorization header, URL path
(query string excluded; the claims never use one), Content-Length header
(absent modelled as 0), and the result of `json.loads` on the body bytes
(`none` = `JSONDecodeError`; `some fields` = a JSON object with string
values, the only body shape the claims exercise). -/
structure Request where
  authorization : Option String
  path : String
  contentLength : Nat
  bodyFields : Option (List (String × String))
  deriving DecidableEq, Repr

/-- Structured form of the JSON dictionaries the handler sends. -/
inductive RespBody where
  | err (message : String)
  | credList (service : String) (credentials : List (String × String))
      (availableKeys : List String)
  | credGet (key value maskedValue : String)
  | credStored (message key maskedValue : String)
  deriving DecidableEq, Repr

/-- An HTTP response: status code and JSON body. -/
structure Resp where
  status : Nat
  body : RespBody
  deriving DecidableEq, Repr

/-- Embeds `_validate_api_key` (server.py:68): read the Authorization
header (default `""`), require the `Bearer ` prefix, and compare the
remaining token with the server's key via `hmac.compare_digest`, whose
result equals string equality. -/
def validate_api_key (apiKey : String) (authorization : Option String) :
    Bool :=
  let authHeader := authorization.getD ""
  if charsStartWith ("Bearer ").toList authHeader.toList then
    apiKey == String.mk (authHeader.toList.drop 7)
  else false

/-- Embeds `_get_json_body` (server.py:89): with Content-Length 0 the body
is the empty dict without any parsing; otherwise `json.loads` runs on the
body bytes (`none` = `JSONDecodeError`). -/
def get_json_body (r : Request) : Option (List (String × String)) :=
  if r.contentLength = 0 then some []
  else r.bodyFields

/-- Embeds Python `s.strip("/")`: remove leading and trailing slashes. -/
def stripSlashes (s : String) : List Char :=
  ((s.toList.dropWhile (fun c => c == '/')).reverse.dropWhile
    (fun c => c == '/')).reverse

/-- Embeds Python `s.split("/")` for the single-character separator the
source uses: split into segments at every slash, keeping empty segments. -/
def splitOnSlash : List Char → List Char → List String
  | [], cur => [String.mk cur.reverse]
  | c :: rest, cur =>
    if c == '/' then String.mk cur.reverse :: splitOnSlash rest []
    else splitOnSlash rest (c :: cur)

/-- Embeds `_parse_url` (server.py:98): `url.path.strip("/").split("/")`. -/
def parse_url_path (p : String) : List String :=
  splitOnSlash (stripSlashes p) []

/-- Embeds `do_GET` (server.py:118). -/
def do_GET (apiKey : String) (kc : KC) (r : Request) : Resp :=
  if !(validate_api_key apiKey r.authorization) then
    ⟨401, RespBody.err "Invalid API key"⟩
  else
    match parse_url_path r.path with
    | [seg] =>
      if seg == "credentials" then
        let details := get_organization_details kc
        ⟨200, RespBody.credList SERVICE_NAME
          (details.map (fun kv => (kv.1, server_mask_sensitive_value kv.1 kv.2)))
          ORG_KEYS⟩
      else ⟨404, RespBody.err "Unknown endpoint"⟩
    | [seg, key] =>
      if seg == "credentials" then
        if !(Validate key) then ⟨404, RespBody.err ("Unknown key: " ++ key)⟩
        else
          match (get_specific_detail kc key).1 with
          | none => ⟨404, RespBody.err ("No value found for key: " ++ key)⟩
          | some value =>
            ⟨200, RespBody.credGet key value
              (server_mask_sensitive_value key value)⟩
      else ⟨404, RespBody.err "Unknown endpoint"⟩
    | _ => ⟨404, RespBody.err "Unknown endpoint"⟩

/-- Embeds `do_POST` (server.py:166).  Returns the resulting OS store, the
response, and the trace of OS-store calls made while handling the
request. -/
def do_POST (apiKey : String) (addFails : Bool) (kc : KC) (r : Request) :
    KC × Resp × List SecCall :=
  if !(validate_api_key apiKey r.authorization) then
    (kc, ⟨401, RespBody.err "Invalid API key"⟩, [])
  else
    match parse_url_path r.path with
    | [seg, key] =>
      if seg == "credentials" then
        if !(Validate key) then
          (kc, ⟨400, RespBody.err ("Unknown key: " ++ key)⟩, [])
        else
          match get_json_body r with
          | none => (kc, ⟨400, RespBody.err "Invalid JSON body"⟩, [])
          | some fields =>
            match fields.lookup "value" with
            | none =>
              (kc, ⟨400, RespBody.err "Missing required field: value"⟩, [])
            | some value =>
              if value == "" then
                (kc, ⟨400, RespBody.err "Value cannot be empty"⟩, [])
              else
                let result := store_in_keychain addFails kc SERVICE_NAME key value
                if result.2.1 then
                  (result.1, ⟨200, RespBody.credStored
                    ("Successfully stored " ++ key ++ " in Keychain") key
                    (server_mask_sensitive_value key value)⟩, result.2.2)
                else
                  (result.1, ⟨500, RespBody.err
                    ("Failed to store " ++ key ++ " in Keychain")⟩, result.2.2)
      else (kc, ⟨404, RespBody.err "Unknown endpoint"⟩, [])
    | _ => (kc, ⟨404, RespBody.err "Unknown endpoint"⟩, [])

example : parse_url_path "/credentials/COMPANY_NAME" =
    ["credentials", "COMPANY_NAME"] := by decide

example : pyStrip "  a b \n" = "a b" := by decide

example : containsSub "COMPANY_EIN" "EIN" = true := by decide

example : server_mask_sensitive_value "COMPANY_EIN" "123456789" =
    "*****6789" := by decide

example : (get_from_keychain
    (store_in_keychain false [] SERVICE_NAME "COMPANY_NAME" "a ").1
    SERVICE_NAME "COMPANY_NAME").1 = some "a" := by decide

example : validate_api_key "tok" (some "Bearer tok") = true := by decide

example : get_organization_details [((SERVICE_NAME, "COMPANY_NAME"), "")]
    = [] := by decide

lemma Validate_iff (key : String) : Validate key = true ↔ key ∈ ORG_KEYS := by
  simp [Validate, List.contains, List.elem_iff]

lemma kcFind_kcDelete (kc : KC) (s a : String) :
    kcFind (kcDelete kc s a) s a = none := by
  induction kc with
  | nil => rfl
  | cons e t ih =>
    rcases e with ⟨⟨es, ea⟩, ev⟩
    by_cases h1 : es = s
    · subst h1
      by_cases h2 : ea = a
      · subst h2
        simpa [kcDelete, List.filter_cons] using ih
      · simpa [kcDelete, kcFind, List.filter_cons, List.find?_cons, h2]
          using ih
    · simpa [kcDelete, kcFind, List.filter_cons, List.find?_cons, h1]
        using ih

lemma store_fst (kc : KC) (s a v : String) :
    (store_in_keychain false kc s a v).1 = ((s, a), v) :: kcDelete kc s a := by
  simp [store_in_keychain, kcAdd, kcFind_kcDelete]

lemma store_success (f : Bool) (kc : KC) (s a v : String) :
    (store_in_keychain f kc s a v).2.1 = !f := by
  cases f <;> simp [store_in_keychain, kcAdd, kcFind_kcDelete]

lemma store_trace (f : Bool) (kc : KC) (s a v : String) :
    (store_in_keychain f kc s a v).2.2 =
      [SecCall.del s a, SecCall.add s a v] := by
  unfold store_in_keychain
  cases h : kcAdd f (kcDelete kc s a) s a v <;> simp [h]

lemma get_after_store (kc : KC) (s a v : String) :
    (get_from_keychain (store_in_keychain false kc s a v).1 s a).1 =
      some (pyStrip v) := by
  simp [store_fst, get_from_keychain, kcFind, List.find?_cons]

lemma charsStartWith_iff (n h : List Char) :
    charsStartWith n h = true ↔ ∃ t, h = n ++ t := by
  induction n generalizing h with
  | nil =>
    simp [charsStartWith]
  | cons c cs ih =>
    cases h with
    | nil => simp [charsStartWith]
    | cons b bs =>
      simp only [charsStartWith, Bool.and_eq_true, beq_iff_eq, ih,
        List.cons_append, List.cons.injEq]
      constructor
      · rintro ⟨rfl, t, rfl⟩
        exact ⟨t, rfl, rfl⟩
      · rintro ⟨t, rfl, rfl⟩
        exact ⟨rfl, t, rfl⟩

lemma charsContain_iff (n h : List Char) :
    charsContain n h = true ↔ ∃ p t, h = p ++ n ++ t := by
  induction h with
  | nil =>
    simp only [charsContain, charsStartWith_iff]
    constructor
    · rintro ⟨t, ht⟩
      exact ⟨[], t, by simpa using ht⟩
    · rintro ⟨p, t, ht⟩
      rw [eq_comm, List.append_eq_nil] at ht
      obtain ⟨h1, h2⟩ := ht
      rw [List.append_eq_nil] at h1
      exact ⟨[], by simp [h1.2]⟩
  | cons b bs ih =>
    simp only [charsContain, Bool.or_eq_true, charsStartWith_iff, ih]
    constructor
    · rintro (⟨t, ht⟩ | ⟨p, t, ht⟩)
      · exact ⟨[], t, by simpa using ht⟩
      · exact ⟨b :: p, t, by simp [ht]⟩
    · rintro ⟨p, t, ht⟩
      cases p with
      | nil =>
        exact Or.inl ⟨t, by simpa using ht⟩
      | cons x xs =>
        simp only [List.cons_append, List.cons.injEq] at ht
        exact Or.inr ⟨xs, t, ht.2⟩

lemma containsSub_iff (hay needle : String) :
    containsSub hay needle = true ↔
      ∃ p t, hay.toList = p ++ needle.toList ++ t := by
  simp [containsSub, charsContain_iff]

lemma detailsAux_eq (kc : KC) (keys : List String)
    (acc : List (String × String)) :
    detailsAux kc keys acc = acc ++ keys.filterMap (fun key =>
      match (get_from_keychain kc SERVICE_NAME key).1 with
      | some v => if v = "" then none else some (key, v)
      | none => none) := by
  induction keys generalizing acc with
  | nil => simp [detailsAux]
  | cons key rest ih =>
    cases hv : (get_from_keychain kc SERVICE_NAME key).1 with
    | none =>
      simp only [detailsAux, hv]
      rw [ih, List.filterMap_cons]
      simp [hv]
    | some v =>
      by_cases he : v = ""
      · simp only [detailsAux, hv, if_pos he]
        rw [ih, List.filterMap_cons]
        simp [hv, he]
      · simp only [detailsAux, hv, if_neg he]
        rw [ih, List.filterMap_cons]
        simp [hv, he]

lemma validate_api_key_eq (apiKey : String) (auth : Option String) :
    validate_api_key apiKey auth =
      (charsStartWith ("Bearer ").toList (auth.getD "").toList &&
        (apiKey == String.mk ((auth.getD "").toList.drop 7))) := by
  unfold validate_api_key
  cases h : charsStartWith ("Bearer ").toList (auth.getD "").toList with
  | false =>
    simp at h
    simp [h]
  | true =>
    simp at h
    simp [h]

/-- C1: for every valid key and non-empty value, Set then Get round-trips.
As stated the claim fails: `get_from_keychain` applies Python `strip()` to
the retrieved secret, so values with leading or trailing whitespace come
back stripped.  Amended: Get returns the stored value with surrounding
whitespace stripped, hence exactly `v` whenever `v` carries none. -/
theorem C1_roundtrip (kc : KC) (key v : String)
    (hkey : key ∈ ORG_KEYS) (hne : v ≠ "") :
    (get_from_keychain (store_in_keychain false kc SERVICE_NAME key v).1
        SERVICE_NAME key).1 = some (pyStrip v) ∧
    (pyStrip v = v →
      (get_from_keychain (store_in_keychain false kc SERVICE_NAME key v).1
          SERVICE_NAME key).1 = some v) := by
  refine ⟨get_after_store kc SERVICE_NAME key v, fun h => ?_⟩
  rw [get_after_store, h]

/-- C1 witness: storing and reading back a concrete whitespace-free value. -/
theorem C1_roundtrip_witness :
    (get_from_keychain (store_in_keychain false [] SERVICE_NAME
        "COMPANY_NAME" "Acme Inc").1 SERVICE_NAME "COMPANY_NAME").1 =
      some "Acme Inc" :=
  (C1_roundtrip [] "COMPANY_NAME" "Acme Inc" (by decide) (by decide)).2
    (by decide)

/-- C1 counterexample: the valid key COMPANY_NAME and the non-empty value
"a " do not round-trip — Get returns "a", not "a ". -/
theorem C1_counterexample :
    ("COMPANY_NAME" : String) ∈ ORG_KEYS ∧ ("a " : String) ≠ "" ∧
    (get_from_keychain (store_in_keychain false [] SERVICE_NAME
        "COMPANY_NAME" "a ").1 SERVICE_NAME "COMPANY_NAME").1 ≠
      some "a " := by
  exact ⟨by decide, by decide, by decide⟩

/-- C2: Set after Set overwrites; Set deletes then adds, ignoring the
delete's outcome, and fails exactly when the add step fails.  As with C1,
the subsequent Get returns `v2` stripped of surrounding whitespace, so
the "returns v2" part holds under the amendment that `v2` carries none;
the delete-then-add order is the returned call trace, and the reported
result equals the add step's success regardless of what the store held. -/
theorem C2_overwrite (kc : KC) (key v1 v2 : String) :
    (get_from_keychain (store_in_keychain false
        (store_in_keychain false kc SERVICE_NAME key v1).1
        SERVICE_NAME key v2).1 SERVICE_NAME key).1 = some (pyStrip v2) ∧
    (pyStrip v2 = v2 →
      (get_from_keychain (store_in_keychain false
          (store_in_keychain false kc SERVICE_NAME key v1).1
          SERVICE_NAME key v2).1 SERVICE_NAME key).1 = some v2) ∧
    (∀ (f : Bool) (kc2 : KC),
      (store_in_keychain f kc2 SERVICE_NAME key v2).2.1 = !f) ∧
    (∀ (f : Bool) (kc2 : KC),
      (store_in_keychain f kc2 SERVICE_NAME key v2).2.2 =
        [SecCall.del SERVICE_NAME key, SecCall.add SERVICE_NAME key v2]) := by
  refine ⟨get_after_store _ _ _ _, fun h => ?_,
    fun f kc2 => store_success f kc2 SERVICE_NAME key v2,
    fun f kc2 => store_trace f kc2 SERVICE_NAME key v2⟩
  rw [get_after_store, h]

/-- C2 witness: overwriting a concrete value and reading back the second. -/
theorem C2_overwrite_witness :
    (get_from_keychain (store_in_keychain false
        (store_in_keychain false [] SERVICE_NAME "BANK_ACCT" "111").1
        SERVICE_NAME "BANK_ACCT" "222").1 SERVICE_NAME "BANK_ACCT").1 =
      some "222" :=
  (C2_overwrite [] "BANK_ACCT" "111" "222").2.1 (by decide)

/-- C2 counterexample: after Set("x") then Set("y "), Get returns "y",
not "y " — the overwrite claim fails verbatim for a whitespace-padded
second value. -/
theorem C2_counterexample :
    (get_from_keychain (store_in_keychain false
        (store_in_keychain false [] SERVICE_NAME "BANK_ACCT" "x").1
        SERVICE_NAME "BANK_ACCT" "y ").1 SERVICE_NAME "BANK_ACCT").1 ≠
      some "y " := by decide

/-- C3: validation is membership in the 7-key set.  As stated the claim
fails for the store operation: `store_in_keychain` performs no validation
and its OS calls go through for any key (see the counterexample).
Amended: Validate is true exactly on the fixed set; for any other key
`get_specific_detail` returns absent with no OS-store call, and the HTTP
POST store endpoint answers 400 with no OS-store call and no change to
the store; key validation for stores lives in the calling layers, not in
the keychain adapter. -/
theorem C3_validation (key : String) :
    (Validate key = true ↔ key ∈ ORG_KEYS) ∧
    (key ∉ ORG_KEYS →
      Validate key = false ∧
      (∀ kc : KC, get_specific_detail kc key = (none, [])) ∧
      (∀ (apiKey : String) (f : Bool) (kc : KC) (r : Request),
        validate_api_key apiKey r.authorization = true →
        parse_url_path r.path = ["credentials", key] →
        do_POST apiKey f kc r =
          (kc, ⟨400, RespBody.err ("Unknown key: " ++ key)⟩, []))) := by
  have hiff := Validate_iff key
  refine ⟨hiff, fun hnot => ?_⟩
  have hf : Validate key = false := by
    cases h : Validate key
    · rfl
    · exact absurd (hiff.1 h) hnot
  refine ⟨hf, fun kc => ?_, fun apiKey f kc r hauth hpath => ?_⟩
  · simp [get_specific_detail, hf]
  · simp [do_POST, hauth, hpath, hf]

/-- C3 witness: a member key validates; an unknown key is rejected by
`get_specific_detail` with no OS call. -/
theorem C3_validation_witness :
    Validate "COMPANY_EIN" = true ∧
    get_specific_detail [] "NOT_A_KEY" = (none, []) :=
  ⟨(C3_validation "COMPANY_EIN").1.2 (by decide),
    ((C3_validation "NOT_A_KEY").2 (by decide)).2.1 []⟩

/-- C3 counterexample: for the invalid key "NOT_A_KEY" the store
operation does issue OS-store calls and the value lands in the store —
nothing fails fast in the keychain adapter. -/
theorem C3_counterexample :
    ("NOT_A_KEY" : String) ∉ ORG_KEYS ∧
    (store_in_keychain false [] SERVICE_NAME "NOT_A_KEY" "v").2.2 ≠ [] ∧
    kcFind (store_in_keychain false [] SERVICE_NAME "NOT_A_KEY" "v").1
      SERVICE_NAME "NOT_A_KEY" = some "v" := by
  exact ⟨by decide, by decide, by decide⟩

/-- C4: the masking function masks all but the last four characters of a
value whose key contains a sensitivity marker (entirely when the value
has at most four characters) and leaves other values unchanged, with the
three concrete examples from the spec. -/
theorem C4_masking :
    (∀ key value : String,
      ((∃ m ∈ (["SSN", "EIN", "BANK", "ACCT", "ROUTING"] : List String),
          ∃ p t, key.toList = p ++ m.toList ++ t) →
        server_mask_sensitive_value key value =
          if value.length > 4 then
            String.mk (List.replicate (value.length - 4) '*' ++
              value.toList.drop (value.length - 4))
          else String.mk (List.replicate value.length '*')) ∧
      (¬(∃ m ∈ (["SSN", "EIN", "BANK", "ACCT", "ROUTING"] : List String),
          ∃ p t, key.toList = p ++ m.toList ++ t) →
        server_mask_sensitive_value key value = value)) ∧
    server_mask_sensitive_value "COMPANY_EIN" "123456789" = "*****6789" ∧
    server_mask_sensitive_value "COMPANY_NAME" "Acme" = "Acme" ∧
    server_mask_sensitive_value "BANK_ACCT" "12" = "**" := by
  refine ⟨fun key value => ?_, by decide, by decide, by decide⟩
  have hc : ((["SSN", "EIN", "BANK", "ACCT", "ROUTING"] : List String).any
      (fun s => containsSub key s) = true) ↔
      (∃ m ∈ (["SSN", "EIN", "BANK", "ACCT", "ROUTING"] : List String),
        ∃ p t, key.toList = p ++ m.toList ++ t) := by
    simp [List.any_eq_true, containsSub_iff]
  constructor
  · intro hs
    have hb := hc.2 hs
    simp [server_mask_sensitive_value, hb]
  · intro hs
    have hb : ((["SSN", "EIN", "BANK", "ACCT", "ROUTING"] : List String).any
        (fun s => containsSub key s)) = false := by
      cases hx : ((["SSN", "EIN", "BANK", "ACCT", "ROUTING"] :
          List String).any (fun s => containsSub key s))
      · rfl
      · exact absurd (hc.1 hx) hs
    simp [server_mask_sensitive_value, hb]

/-- C4 witness: a key containing the BANK marker masks all but the last
four characters. -/
theorem C4_masking_witness :
    server_mask_sensitive_value "BANK_X" "12345" = "*2345" :=
  (C4_masking.1 "BANK_X" "12345").1
    ⟨"BANK", by decide, [], ['_', 'X'], by decide⟩

/-- C5: requests whose Authorization header is missing, lacks the Bearer
prefix, or carries a token other than the server's key are answered 401
with body error "Invalid API key" by both handlers, with no OS-store call
and no store change; a header carrying the correct bearer token passes
the check.  (The source compares tokens with `hmac.compare_digest`, whose
functional result is string equality; its constant-time execution is a
timing property outside this embedding.) -/
theorem C5_auth (apiKey : String) (f : Bool) (kc : KC) (r : Request) :
    ((r.authorization = none ∨
      (∃ h, r.authorization = some h ∧
        charsStartWith ("Bearer ").toList h.toList = false) ∨
      (∃ h, r.authorization = some h ∧
        charsStartWith ("Bearer ").toList h.toList = true ∧
        String.mk (h.toList.drop 7) ≠ apiKey)) →
      do_GET apiKey kc r = ⟨401, RespBody.err "Invalid API key"⟩ ∧
      do_POST apiKey f kc r =
        (kc, ⟨401, RespBody.err "Invalid API key"⟩, [])) ∧
    (∀ h, r.authorization = some h →
      charsStartWith ("Bearer ").toList h.toList = true →
      String.mk (h.toList.drop 7) = apiKey →
      validate_api_key apiKey r.authorization = true) := by
  constructor
  · intro hbad
    have hv : validate_api_key apiKey r.authorization = false := by
      rcases hbad with hnone | ⟨h, hsome, hpre⟩ | ⟨h, hsome, hpre, htok⟩
      · rw [validate_api_key_eq, hnone]
        have hx : charsStartWith ("Bearer ").toList
            (((none : Option String).getD "").toList) = false := by decide
        rw [hx, Bool.false_and]
      · rw [validate_api_key_eq, hsome, Option.getD_some, hpre,
          Bool.false_and]
      · rw [validate_api_key_eq, hsome, Option.getD_some, hpre,
          Bool.true_and]
        exact beq_eq_false_iff_ne.mpr (Ne.symm htok)
    constructor
    · simp [do_GET, hv]
    · simp [do_POST, hv]
  · intro h hsome hpre htok
    rw [validate_api_key_eq, hsome, Option.getD_some, hpre, Bool.true_and,
      htok]
    exact beq_self_eq_true apiKey

/-- C5 witness: a request without an Authorization header is answered
401, and the correct bearer token passes validation. -/
theorem C5_auth_witness :
    do_GET "tok" [] ⟨none, "credentials", 0, none⟩ =
      ⟨401, RespBody.err "Invalid API key"⟩ ∧
    validate_api_key "tok" (some "Bearer tok") = true :=
  ⟨((C5_auth "tok" false [] ⟨none, "credentials", 0, none⟩).1
      (Or.inl rfl)).1,
    (C5_auth "tok" false [] ⟨some "Bearer tok", "credentials", 0, none⟩).2
      "Bearer tok" rfl (by decide) (by decide)⟩

/-- C9: the CLI and the HTTP server implement the same masking function. -/
theorem C9_mask_equivalence (key value : String) :
    cli_mask_sensitive_value key value =
      server_mask_sensitive_value key value := rfl

/-- C6: authenticated GET /credentials/key answers 404 with "Unknown key"
for keys outside the fixed set, 404 with "No value found" for valid keys
absent from the store, and otherwise 200 with the key, the unmasked value
and the masked value. -/
theorem C6_get_credential (apiKey : String) (kc : KC) (r : Request)
    (key : String)
    (hauth : validate_api_key apiKey r.authorization = true)
    (hpath : parse_url_path r.path = ["credentials", key]) :
    (key ∉ ORG_KEYS →
      do_GET apiKey kc r = ⟨404, RespBody.err ("Unknown key: " ++ key)⟩) ∧
    (key ∈ ORG_KEYS →
      ((get_specific_detail kc key).1 = none →
        do_GET apiKey kc r =
          ⟨404, RespBody.err ("No value found for key: " ++ key)⟩) ∧
      (∀ v, (get_specific_detail kc key).1 = some v →
        do_GET apiKey kc r =
          ⟨200, RespBody.credGet key v
            (server_mask_sensitive_value key v)⟩)) := by
  constructor
  · intro hnot
    have hf : Validate key = false := by
      cases hx : Validate key
      · rfl
      · exact absurd ((Validate_iff key).1 hx) hnot
    simp [do_GET, hauth, hpath, hf]
  · intro hmem
    have ht : Validate key = true := (Validate_iff key).2 hmem
    constructor
    · intro hnone
      simp [do_GET, hauth, hpath, ht, hnone]
    · intro v hv
      simp [do_GET, hauth, hpath, ht, hv]

/-- C6 witness: reading a stored COMPANY_NAME with the correct token
yields 200 with the unmasked and masked value. -/
theorem C6_get_credential_witness :
    do_GET "tok" [((SERVICE_NAME, "COMPANY_NAME"), "Acme Inc")]
      ⟨some "Bearer tok", "/credentials/COMPANY_NAME", 0, none⟩ =
      ⟨200, RespBody.credGet "COMPANY_NAME" "Acme Inc" "Acme Inc"⟩ :=
  ((C6_get_credential "tok" [((SERVICE_NAME, "COMPANY_NAME"), "Acme Inc")]
      ⟨some "Bearer tok", "/credentials/COMPANY_NAME", 0, none⟩
      "COMPANY_NAME" (by decide) (by decide)).2 (by decide)).2
    "Acme Inc" (by decide)

/-- C7: authenticated POST /credentials/key answers 400 for unknown keys,
unparsable bodies, bodies lacking a value field, and empty values; and
otherwise attempts Set (delete then add traced) and answers 200 with a
confirmation and the masked value on success, or 500 on failure. -/
theorem C7_post_credential (apiKey : String) (f : Bool) (kc : KC)
    (r : Request) (key : String)
    (hauth : validate_api_key apiKey r.authorization = true)
    (hpath : parse_url_path r.path = ["credentials", key]) :
    (key ∉ ORG_KEYS →
      do_POST apiKey f kc r =
        (kc, ⟨400, RespBody.err ("Unknown key: " ++ key)⟩, [])) ∧
    (key ∈ ORG_KEYS →
      (get_json_body r = none →
        do_POST apiKey f kc r =
          (kc, ⟨400, RespBody.err "Invalid JSON body"⟩, [])) ∧
      (∀ fields, get_json_body r = some fields →
        (fields.lookup "value" = none →
          do_POST apiKey f kc r =
            (kc, ⟨400, RespBody.err "Missing required field: value"⟩,
              [])) ∧
        (fields.lookup "value" = some "" →
          do_POST apiKey f kc r =
            (kc, ⟨400, RespBody.err "Value cannot be empty"⟩, [])) ∧
        (∀ v, fields.lookup "value" = some v → v ≠ "" →
          do_POST apiKey f kc r =
            ((store_in_keychain f kc SERVICE_NAME key v).1,
              (if f then
                ⟨500, RespBody.err
                  ("Failed to store " ++ key ++ " in Keychain")⟩
              else
                ⟨200, RespBody.credStored
                  ("Successfully stored " ++ key ++ " in Keychain") key
                  (server_mask_sensitive_value key v)⟩),
              [SecCall.del SERVICE_NAME key,
                SecCall.add SERVICE_NAME key v])))) := by
  constructor
  · intro hnot
    have hf : Validate key = false := by
      cases hx : Validate key
      · rfl
      · exact absurd ((Validate_iff key).1 hx) hnot
    simp [do_POST, hauth, hpath, hf]
  · intro hmem
    have ht : Validate key = true := (Validate_iff key).2 hmem
    refine ⟨fun hjson => ?_, fun fields hfields => ⟨fun hnone => ?_,
      fun hempty => ?_, fun v hv hne => ?_⟩⟩
    · simp [do_POST, hauth, hpath, ht, hjson]
    · simp [do_POST, hauth, hpath, ht, hfields, hnone]
    · simp [do_POST, hauth, hpath, ht, hfields, hempty]
    · have hval : (v == "") = false := beq_eq_false_iff_ne.mpr hne
      cases f
      · simp [do_POST, hauth, hpath, ht, hfields, hv, hval,
          store_success, store_trace]
      · simp [do_POST, hauth, hpath, ht, hfields, hv, hval,
          store_success, store_trace]

/-- C7 witness: storing a concrete value through the endpoint succeeds
with 200, a confirmation message and the (unmasked for this key) value. -/
theorem C7_post_credential_witness :
    do_POST "tok" false []
      ⟨some "Bearer tok", "/credentials/COMPANY_NAME", 16,
        some [("value", "Acme")]⟩ =
      ([((SERVICE_NAME, "COMPANY_NAME"), "Acme")],
        ⟨200, RespBody.credStored
          "Successfully stored COMPANY_NAME in Keychain" "COMPANY_NAME"
          "Acme"⟩,
        [SecCall.del SERVICE_NAME "COMPANY_NAME",
          SecCall.add SERVICE_NAME "COMPANY_NAME" "Acme"]) :=
  ((((C7_post_credential "tok" false []
      ⟨some "Bearer tok", "/credentials/COMPANY_NAME", 16,
        some [("value", "Acme")]⟩
      "COMPANY_NAME" (by decide) (by decide)).2 (by decide)).2
    [("value", "Acme")] (by decide)).2.2 "Acme" (by decide) (by decide))

/-- C8: FetchAll is the in-order accumulation of Get over the fixed key
set.  As stated the claim fails: the source keeps a key only when the
retrieved value is truthy (`if value:`), so a stored empty string is
omitted although Get returns a non-absent result (see the
counterexample).  Amended: a key is present in the mapping iff Get
returned a non-absent, non-empty value for it. -/
theorem C8_fetch_all (kc : KC) :
    get_organization_details kc = ORG_KEYS.filterMap (fun key =>
      match (get_from_keychain kc SERVICE_NAME key).1 with
      | some v => if v = "" then none else some (key, v)
      | none => none) ∧
    (∀ key v, (key, v) ∈ get_organization_details kc ↔
      key ∈ ORG_KEYS ∧
        (get_from_keychain kc SERVICE_NAME key).1 = some v ∧ v ≠ "") := by
  have heq := detailsAux_eq kc ORG_KEYS []
  rw [List.nil_append] at heq
  refine ⟨heq, fun key v => ?_⟩
  have h2 : get_organization_details kc = ORG_KEYS.filterMap (fun key =>
      match (get_from_keychain kc SERVICE_NAME key).1 with
      | some v => if v = "" then none else some (key, v)
      | none => none) := heq
  rw [h2, List.mem_filterMap]
  constructor
  · rintro ⟨a, ha, hfa⟩
    cases hga : (get_from_keychain kc SERVICE_NAME a).1 with
    | none => simp [hga] at hfa
    | some w =>
      by_cases hw : w = ""
      · simp [hga, hw] at hfa
      · simp [hga, hw] at hfa
        obtain ⟨rfl, rfl⟩ := hfa
        exact ⟨ha, hga, hw⟩
  · rintro ⟨hmem, hget, hne⟩
    refine ⟨key, hmem, ?_⟩
    simp [hget, hne]

/-- C8 witness: a stored non-empty value appears in the mapping. -/
theorem C8_fetch_all_witness :
    ("COMPANY_NAME", "Acme") ∈ get_organization_details
      [((SERVICE_NAME, "COMPANY_NAME"), "Acme")] :=
  ((C8_fetch_all [((SERVICE_NAME, "COMPANY_NAME"), "Acme")]).2
    "COMPANY_NAME" "Acme").2 ⟨by decide, by decide, by decide⟩

/-- C8 counterexample: with an empty string stored under COMPANY_NAME,
Get returns a non-absent result yet FetchAll omits the key. -/
theorem C8_counterexample :
    (get_from_keychain [((SERVICE_NAME, "COMPANY_NAME"), "")] SERVICE_NAME
      "COMPANY_NAME").1 = some "" ∧
    get_organization_details [((SERVICE_NAME, "COMPANY_NAME"), "")] =
      [] := by
  exact ⟨by decide, by decide⟩

/-- C10: an authenticated POST to a valid key whose Content-Length is
absent or zero treats the body as the empty JSON object, so it is
answered 400 "Missing required field: value" and the "Invalid JSON body"
path is never taken, whatever the body bytes hold. -/
theorem C10_empty_body (apiKey : String) (f : Bool) (kc : KC) (r : Request)
    (key : String)
    (hauth : validate_api_key apiKey r.authorization = true)
    (hpath : parse_url_path r.path = ["credentials", key])
    (hmem : key ∈ ORG_KEYS)
    (hcl : r.contentLength = 0) :
    get_json_body r = some [] ∧
    do_POST apiKey f kc r =
      (kc, ⟨400, RespBody.err "Missing required field: value"⟩, []) := by
  have hj : get_json_body r = some [] := by simp [get_json_body, hcl]
  have ht : Validate key = true := (Validate_iff key).2 hmem
  refine ⟨hj, ?_⟩
  simp [do_POST, hauth, hpath, ht, hj, List.lookup]

/-- C10 witness: even an unparsable body is answered "Missing required
field: value" when Content-Length is zero. -/
theorem C10_empty_body_witness :
    do_POST "tok" false []
      ⟨some "Bearer tok", "/credentials/BANK_ACCT", 0, none⟩ =
      ([], ⟨400, RespBody.err "Missing required field: value"⟩, []) :=
  (C10_empty_body "tok" false []
    ⟨some "Bearer tok", "/credentials/BANK_ACCT", 0, none⟩
    "BANK_ACCT" (by decide) (by decide) (by decide) rfl).2
